import Mathlib

/-!
Verification of the `Optional` value-container library.

The library is a TypeScript implementation of `java.util.Optional<T>`:
a single class `OptionalValue<T>` storing one slot `value`, with the
two absence markers `undefined` and `null` normalized to the internal
marker `null`.  We embed the dynamic values the container can hold as
an inductive type `JSValue`, errors as a structure `JSError` (carrying
the error subtype name and the message), and promises as an inductive
`JSPromise` that is always already settled (the library only ever
returns `Promise.resolve`/`Promise.reject`).

Objects carry an identity tag `id` (JavaScript `===` on objects is
reference identity), the result of `JSON.stringify` on them (`none`
models a throw, e.g. on cyclic structures), and their default string
rendering (the result of string coercion).
-/

/-- Dynamic JavaScript values, as far as the container inspects them.
Numbers are modelled as integers (all values used by the spec and tests
are integers). -/
inductive JSValue where
  | undef : JSValue
  | null : JSValue
  | bool (b : Bool) : JSValue
  | num (n : Int) : JSValue
  | str (s : String) : JSValue
  | obj (id : Nat) (stringifyResult : Option String) (plain : String) : JSValue
deriving Repr, DecidableEq

/-- A JavaScript `Error` object: `name` is the error subtype
(`"Error"`, `"TypeError"`, ...), `message` its message. -/
structure JSError where
  name : String
  message : String
deriving Repr, DecidableEq

/-- The default error subtype: `new Error(msg)`. -/
def JSError.mkError (msg : String) : JSError := ⟨"Error", msg⟩

/-- A JavaScript promise as returned by `toPromise`: always already
settled at the moment of return. -/
inductive JSPromise where
  | resolved (v : JSValue) : JSPromise
  | rejected (e : JSError) : JSPromise
deriving Repr, DecidableEq

/-- JavaScript strict equality `===` restricted to the values we model:
primitive equality on primitives, reference identity on objects. -/
def JSValue.strictEq : JSValue → JSValue → Bool
  | .undef, .undef => true
  | .null, .null => true
  | .bool a, .bool b => a == b
  | .num a, .num b => a == b
  | .str a, .str b => a == b
  | .obj i _ _, .obj j _ _ => i == j
  | _, _ => false

/-- `typeof value === "number"`, used to express the spec's
typeof-based comparator probe. -/
def JSValue.isNum : JSValue → Bool
  | .num _ => true
  | _ => false

/-- JavaScript `typeof value === "object" || typeof value === "string"`,
the guard used by `toString` (note `typeof null === "object"`). -/
def JSValue.isObjectOrString : JSValue → Bool
  | .obj _ _ _ => true
  | .str _ => true
  | .null => true
  | _ => false

/-- JSON escaping of one character inside a string literal. -/
def jsonEscapeChar (c : Char) : String :=
  if c = '"' then "\\\""
  else if c = '\\' then "\\\\"
  else if c = '\n' then "\\n"
  else if c = '\t' then "\\t"
  else if c = '\r' then "\\r"
  else String.singleton c

/-- `JSON.stringify` of a string value: double quotes around the
escaped characters. -/
def jsonQuote (s : String) : String :=
  "\"" ++ String.join (s.data.map jsonEscapeChar) ++ "\""

/-- `JSON.stringify(value)`, returning `none` when it throws (only
possible for objects, e.g. cyclic ones) and the produced string
otherwise.  `JSON.stringify(undefined)` yields no string. -/
def JSValue.jsonStringify : JSValue → Option String
  | .undef => none
  | .null => some "null"
  | .bool b => some (cond b "true" "false")
  | .num n => some (toString n)
  | .str s => some (jsonQuote s)
  | .obj _ r _ => r

/-- Default string coercion of a value, as used by template-literal
interpolation. -/
def JSValue.plainString : JSValue → String
  | .undef => "undefined"
  | .null => "null"
  | .bool b => cond b "true" "false"
  | .num n => toString n
  | .str s => s
  | .obj _ _ p => p

/-- The optional argument of `orElseThrow`/`toPromise`/`parseError`:
a message string or a zero-argument error supplier (the `undefined`
case is `Option.none` at the use sites). -/
inductive ErrorArg where
  | msg (s : String) : ErrorArg
  | supplier (f : Unit → JSError) : ErrorArg

/-- JavaScript truthiness test on the argument
`messageOrErrorSupplier`, as performed by
`if (!messageOrErrorSupplier)`: `undefined` and the empty string are
falsy, every function and every non-empty string is truthy. -/
def ErrorArg.isFalsy : Option ErrorArg → Bool
  | none => true
  | some (.msg s) => s == ""
  | some (.supplier _) => false

/-- The container: a single slot `value`, immutable after
construction.  (`protected constructor(private value: T)`.) -/
structure OptionalValue where
  value : JSValue
deriving Repr, DecidableEq

namespace OptionalValue

/-- `static isPresent<T>(value)`: `value !== undefined && value !== null`.
The spec calls this free helper `isPresentValue`. -/
def isPresentValue (value : JSValue) : Bool :=
  value != JSValue.undef && value != JSValue.null

/-- `static empty()`: `new OptionalValue(null)`. -/
def empty : OptionalValue := ⟨JSValue.null⟩

/-- `static of<T>(value)`: Present wrapper when the value passes the
presence check, Empty otherwise.  The exported callable `Optional(value)`
is this same function. -/
def of (value : JSValue) : OptionalValue :=
  if isPresentValue value then ⟨value⟩ else empty

/-- `private parseError(messageOrErrorSupplier?)`: falsy argument →
default `Error("Value not present.")`; string → `Error` with that
message; function → its result, used verbatim. -/
def parseError (messageOrErrorSupplier : Option ErrorArg) : JSError :=
  if ErrorArg.isFalsy messageOrErrorSupplier then
    JSError.mkError "Value not present."
  else
    match messageOrErrorSupplier with
    | some (.msg s) => JSError.mkError s
    | some (.supplier f) => f ()
    | none => JSError.mkError "Value not present."

/-- `get()`: returns the stored slot verbatim. -/
def get (o : OptionalValue) : JSValue := o.value

/-- `isPresent()`. -/
def isPresent (o : OptionalValue) : Bool := isPresentValue o.value

/-- `isEmpty()`. -/
def isEmpty (o : OptionalValue) : Bool := !isPresentValue o.value

/-- `filter(predicate)`.  The second component counts how many times
the predicate was invoked. -/
def filter (o : OptionalValue) (predicate : JSValue → Bool) :
    OptionalValue × Nat :=
  if o.isEmpty then (o, 0)
  else if predicate o.value then (o, 1)
  else (empty, 1)

/-- `map(mapper)`.  The second component counts how many times the
mapper was invoked. -/
def map (o : OptionalValue) (mapper : JSValue → JSValue) :
    OptionalValue × Nat :=
  if o.isEmpty then (o, 0)
  else
    let mapped := mapper o.value
    if isPresentValue mapped then (of mapped, 1)
    else (empty, 1)

/-- `flatMap(mapper)`.  The second component counts mapper
invocations. -/
def flatMap (o : OptionalValue) (mapper : JSValue → OptionalValue) :
    OptionalValue × Nat :=
  if o.isEmpty then (o, 0)
  else (mapper o.value, 1)

/-- `orElse(other)`. -/
def orElse (o : OptionalValue) (other : JSValue) : JSValue :=
  if o.isPresent then o.value else other

/-- `orElseGet(other)`.  The second component counts supplier
invocations. -/
def orElseGet (o : OptionalValue) (other : Unit → JSValue) :
    JSValue × Nat :=
  if o.isPresent then (o.value, 0)
  else (other (), 1)

/-- `orElseThrow(messageOrErrorSupplier?)`: `.ok` is a normal return,
`.error` a synchronously thrown error. -/
def orElseThrow (o : OptionalValue)
    (messageOrErrorSupplier : Option ErrorArg) : Except JSError JSValue :=
  if o.isPresent then Except.ok o.value
  else Except.error (parseError messageOrErrorSupplier)

/-- `equals(other, comparator?)`. -/
def equals (o other : OptionalValue)
    (comparator : Option (JSValue → JSValue → Bool)) : Bool :=
  if o.isEmpty && other.isEmpty then true
  else if o.isEmpty || other.isEmpty then false
  else
    match comparator with
    | some c => c o.value other.value
    | none => o.value.strictEq other.value

/-- `contains(value)`. -/
def contains (o : OptionalValue) (value : JSValue) : Bool :=
  o.isPresent && o.value.strictEq value

/-- `toPromise(messageOrErrorSupplier?)`: an already-settled promise. -/
def toPromise (o : OptionalValue)
    (messageOrErrorSupplier : Option ErrorArg) : JSPromise :=
  if o.isPresent then JSPromise.resolved o.value
  else JSPromise.rejected (parseError messageOrErrorSupplier)

/-- `toString()`: `"Optional.Empty"` when empty, otherwise
`"Optional.Present<...>"` with `JSON.stringify` attempted for objects
and strings (falling back to the plain rendering if it throws) and the
plain rendering for the other primitives. -/
def toString (o : OptionalValue) : String :=
  if o.isPresent then
    let value := o.value
    if value.isObjectOrString then
      match value.jsonStringify with
      | some s => "Optional.Present<" ++ s ++ ">"
      | none => "Optional.Present<" ++ value.plainString ++ ">"
    else "Optional.Present<" ++ value.plainString ++ ">"
  else "Optional.Empty"

end OptionalValue

open OptionalValue

/-- `isEmpty` is literally the negation of `isPresent`. -/
theorem isEmpty_eq_not_isPresent (o : OptionalValue) :
    o.isEmpty = !o.isPresent := rfl

theorem isPresent_eq_false_of_isEmpty (o : OptionalValue)
    (h : o.isEmpty = true) : o.isPresent = false := by
  rw [isEmpty_eq_not_isPresent] at h
  exact Bool.not_eq_true' .. |>.mp h

theorem isEmpty_eq_false_of_isPresent (o : OptionalValue)
    (h : o.isPresent = true) : o.isEmpty = false := by
  rw [isEmpty_eq_not_isPresent, h]
  rfl

/-- A non-empty string is a truthy `parseError` argument. -/
theorem isFalsy_msg_eq_false {s : String} (h : s ≠ "") :
    ErrorArg.isFalsy (some (.msg s)) = false := by
  simpa [ErrorArg.isFalsy] using h

theorem parseError_msg_of_ne {s : String} (h : s ≠ "") :
    parseError (some (.msg s)) = JSError.mkError s := by
  rw [parseError, isFalsy_msg_eq_false h]
  rfl

theorem parseError_supplier (f : Unit → JSError) :
    parseError (some (.supplier f)) = f () := rfl

/-- C1 counterexample: the claim promises that, when Empty, a string
argument "X" produces an error whose message is exactly "X" for every
string — but for the empty string the code raises the default error
with message "Value not present.", not an error with message "". -/
theorem orElseThrow_emptyString_counterexample :
    OptionalValue.empty.orElseThrow (some (.msg "")) =
      Except.error (JSError.mkError "Value not present.") ∧
    (JSError.mkError "Value not present.").message ≠ "" := by
  constructor
  · rfl
  · decide

/-- C1 (amended): for every Empty container, `orElseThrow` raises
synchronously — no argument gives the default error with message
"Value not present.", a non-empty string "X" gives an error with
message exactly "X", and a supplier gives exactly the error object it
returns, subtype included; for every Present container it returns the
contained value and never raises. -/
theorem orElseThrow_spec (o : OptionalValue) (arg : Option ErrorArg) :
    (o.isPresent = true → o.orElseThrow arg = Except.ok o.value) ∧
    (o.isEmpty = true →
      o.orElseThrow none = Except.error (JSError.mkError "Value not present.")) ∧
    (o.isEmpty = true → ∀ s : String, s ≠ "" →
      o.orElseThrow (some (.msg s)) = Except.error (JSError.mkError s)) ∧
    (o.isEmpty = true → ∀ f : Unit → JSError,
      o.orElseThrow (some (.supplier f)) = Except.error (f ())) := by
  refine ⟨fun hp => ?_, fun he => ?_, fun he s hs => ?_, fun he f => ?_⟩
  · rw [orElseThrow, hp]; rfl
  · rw [orElseThrow, isPresent_eq_false_of_isEmpty o he]; rfl
  · rw [orElseThrow, isPresent_eq_false_of_isEmpty o he,
      if_neg (fun h => Bool.false_ne_true h), parseError_msg_of_ne hs]
  · rw [orElseThrow, isPresent_eq_false_of_isEmpty o he,
      if_neg (fun h => Bool.false_ne_true h), parseError_supplier]

/-- C1 witness: concrete instances of `orElseThrow_spec` — Present(123)
returns 123; Empty with "No value." raises message "No value."; Empty
with a TypeError supplier raises that exact TypeError. -/
theorem orElseThrow_spec_witness :
    (OptionalValue.of (JSValue.num 123)).orElseThrow none =
      Except.ok (JSValue.num 123) ∧
    OptionalValue.empty.orElseThrow (some (.msg "No value.")) =
      Except.error (JSError.mkError "No value.") ∧
    OptionalValue.empty.orElseThrow
        (some (.supplier fun _ => ⟨"TypeError", "Expected type."⟩)) =
      Except.error ⟨"TypeError", "Expected type."⟩ :=
  ⟨(orElseThrow_spec (OptionalValue.of (JSValue.num 123)) none).1 (by decide),
   (orElseThrow_spec OptionalValue.empty none).2.2.1 (by decide)
     "No value." (by decide),
   (orElseThrow_spec OptionalValue.empty none).2.2.2 (by decide)
     (fun _ => ⟨"TypeError", "Expected type."⟩)⟩

/-- C2: `toPromise` on a Present container is an already-resolved
promise with the contained value; on an Empty container, for every
argument, it is an already-rejected promise whose reason is exactly
the error `parseError` produces — the same object the `orElseThrow`
error-resolution rule raises for that argument. -/
theorem toPromise_spec (o : OptionalValue) (arg : Option ErrorArg) :
    (o.isPresent = true → o.toPromise arg = JSPromise.resolved o.value) ∧
    (o.isEmpty = true →
      o.toPromise arg = JSPromise.rejected (parseError arg) ∧
      o.orElseThrow arg = Except.error (parseError arg)) := by
  refine ⟨fun hp => ?_, fun he => ⟨?_, ?_⟩⟩
  · rw [toPromise, hp]; rfl
  · rw [toPromise, isPresent_eq_false_of_isEmpty o he]; rfl
  · rw [orElseThrow, isPresent_eq_false_of_isEmpty o he]; rfl

/-- C2 witness: Present(123) resolves to 123; Empty with message
"No value." rejects with that error. -/
theorem toPromise_spec_witness :
    (OptionalValue.of (JSValue.num 123)).toPromise none =
      JSPromise.resolved (JSValue.num 123) ∧
    OptionalValue.empty.toPromise (some (.msg "No value.")) =
      JSPromise.rejected (parseError (some (.msg "No value."))) :=
  ⟨(toPromise_spec (OptionalValue.of (JSValue.num 123)) none).1 (by decide),
   ((toPromise_spec OptionalValue.empty (some (.msg "No value."))).2
     (by decide)).1⟩

/-- C9: for every Empty container, the empty string "" as argument is
falsy, so `orElseThrow ""` raises the default error with message
"Value not present." (not an error with empty message), `toPromise ""`
rejects with that same default error, and the resolution helper treats
"" exactly like no argument at all. -/
theorem emptyString_falsy_spec (o : OptionalValue) (h : o.isEmpty = true) :
    o.orElseThrow (some (.msg "")) =
      Except.error (JSError.mkError "Value not present.") ∧
    o.toPromise (some (.msg "")) =
      JSPromise.rejected (JSError.mkError "Value not present.") ∧
    parseError (some (.msg "")) = parseError none ∧
    (JSError.mkError "Value not present.").message ≠ "" := by
  refine ⟨?_, ?_, rfl, by decide⟩
  · rw [orElseThrow, isPresent_eq_false_of_isEmpty o h]; rfl
  · rw [toPromise, isPresent_eq_false_of_isEmpty o h]; rfl

/-- C9 witness: `emptyString_falsy_spec` at the canonical Empty
container. -/
theorem emptyString_falsy_spec_witness :
    OptionalValue.empty.orElseThrow (some (.msg "")) =
      Except.error (JSError.mkError "Value not present.") ∧
    OptionalValue.empty.toPromise (some (.msg "")) =
      JSPromise.rejected (JSError.mkError "Value not present.") :=
  ⟨(emptyString_falsy_spec OptionalValue.empty (by decide)).1,
   (emptyString_falsy_spec OptionalValue.empty (by decide)).2.1⟩

/-- C3 counterexample: the rendered labels use the prefix "Optional.",
not "Container.": `empty().toString()` is "Optional.Empty", not
"Container.Empty", and `wrap(123).toString()` is
"Optional.Present<123>", not "Container.Present<123>". -/
theorem toString_label_counterexample :
    OptionalValue.empty.toString ≠ "Container.Empty" ∧
    (OptionalValue.of (JSValue.num 123)).toString ≠ "Container.Present<123>" ∧
    OptionalValue.empty.toString = "Optional.Empty" ∧
    (OptionalValue.of (JSValue.num 123)).toString = "Optional.Present<123>" := by
  refine ⟨by decide, by decide, by decide, by decide⟩

/-- C3 (amended): `toString` of every Empty container is the fixed
literal "Optional.Empty"; for a Present container it is
"Optional.Present<" ++ rendering(value) ++ ">", where objects and
strings are rendered by `JSON.stringify` (falling back to the plain
rendering when serialization throws) and the other primitive kinds use
the plain rendering directly; in particular `wrap(123)` renders as
"Optional.Present<123>" and `wrap("123")` as
`Optional.Present<"123">`. -/
theorem toString_spec (o : OptionalValue) :
    (o.isEmpty = true → o.toString = "Optional.Empty") ∧
    (o.isPresent = true → o.value.isObjectOrString = true →
      ∀ s, o.value.jsonStringify = some s →
        o.toString = "Optional.Present<" ++ s ++ ">") ∧
    (o.isPresent = true → o.value.isObjectOrString = true →
      o.value.jsonStringify = none →
        o.toString = "Optional.Present<" ++ o.value.plainString ++ ">") ∧
    (o.isPresent = true → o.value.isObjectOrString = false →
      o.toString = "Optional.Present<" ++ o.value.plainString ++ ">") ∧
    (OptionalValue.of (JSValue.num 123)).toString = "Optional.Present<123>" ∧
    (OptionalValue.of (JSValue.str "123")).toString = "Optional.Present<\"123\">" ∧
    OptionalValue.empty.toString = "Optional.Empty" := by
  refine ⟨fun he => ?_, fun hp hos s hs => ?_, fun hp hos hn => ?_,
    fun hp hos => ?_, by decide, by decide, by decide⟩
  · rw [OptionalValue.toString, isPresent_eq_false_of_isEmpty o he]; rfl
  · simp [OptionalValue.toString, hp, hos, hs]
  · simp [OptionalValue.toString, hp, hos, hn]
  · simp [OptionalValue.toString, hp, hos]

/-- C3 witness: concrete instances of `toString_spec` — a serializable
object, an object whose serialization throws (fallback to the plain
rendering), and a boolean (plain rendering directly). -/
theorem toString_spec_witness :
    (OptionalValue.of (JSValue.obj 5 (some "1") "[object Object]")).toString =
      "Optional.Present<" ++ "1" ++ ">" ∧
    (OptionalValue.of (JSValue.obj 6 none "[object Object]")).toString =
      "Optional.Present<" ++ "[object Object]" ++ ">" ∧
    (OptionalValue.of (JSValue.bool true)).toString =
      "Optional.Present<" ++ "true" ++ ">" :=
  ⟨(toString_spec (OptionalValue.of (JSValue.obj 5 (some "1") "[object Object]"))).2.1
      (by decide) (by decide) "1" (by decide),
   (toString_spec (OptionalValue.of (JSValue.obj 6 none "[object Object]"))).2.2.1
      (by decide) (by decide) (by decide),
   (toString_spec (OptionalValue.of (JSValue.bool true))).2.2.2.1
      (by decide) (by decide)⟩

/-- C4: wrapping a non-absent value yields a Present container whose
`get` returns that value; wrapping either absence marker (`null` or
`undefined`) yields an Empty container, and those two results `equals`
each other and `equals` the canonical `empty()`. -/
theorem of_wrap_spec :
    (∀ v, isPresentValue v = true →
      (OptionalValue.of v).isPresent = true ∧ (OptionalValue.of v).get = v) ∧
    (OptionalValue.of JSValue.null).isEmpty = true ∧
    (OptionalValue.of JSValue.undef).isEmpty = true ∧
    (OptionalValue.of JSValue.null).equals (OptionalValue.of JSValue.undef) none = true ∧
    (OptionalValue.of JSValue.undef).equals (OptionalValue.of JSValue.null) none = true ∧
    (OptionalValue.of JSValue.null).equals OptionalValue.empty none = true ∧
    (OptionalValue.of JSValue.undef).equals OptionalValue.empty none = true := by
  refine ⟨fun v hv => ?_, by decide, by decide, by decide, by decide,
    by decide, by decide⟩
  simp [of, hv, isPresent, OptionalValue.get]

/-- C4 witness: `of_wrap_spec` instantiated at the non-absent value
123. -/
theorem of_wrap_spec_witness :
    (OptionalValue.of (JSValue.num 123)).isPresent = true ∧
    (OptionalValue.of (JSValue.num 123)).get = JSValue.num 123 :=
  of_wrap_spec.1 (JSValue.num 123) (by decide)

/-- C5: `map` on a Present container yields Present(mapper(value))
when the mapper's output is non-absent and Empty when the output is an
absence marker; `map` on an Empty container returns the container
itself and never invokes the mapper (invocation count 0). -/
theorem map_spec (o : OptionalValue) (f : JSValue → JSValue) :
    (o.isPresent = true → isPresentValue (f o.value) = true →
      o.map f = (⟨f o.value⟩, 1)) ∧
    (o.isPresent = true → isPresentValue (f o.value) = false →
      o.map f = (OptionalValue.empty, 1)) ∧
    (o.isEmpty = true → o.map f = (o, 0)) := by
  refine ⟨fun hp hm => ?_, fun hp hm => ?_, fun he => ?_⟩
  · have he := isEmpty_eq_false_of_isPresent o hp
    simp [map, he, hm, of]
  · have he := isEmpty_eq_false_of_isPresent o hp
    simp [map, he, hm]
  · simp [map, he]

/-- C5 witness: `map_spec` at Present(123) with a mapper producing the
non-absent "123", at Present(123) with a mapper producing the absence
marker `null`, and at Empty. -/
theorem map_spec_witness :
    (OptionalValue.of (JSValue.num 123)).map (fun _ => JSValue.str "123") =
      (⟨JSValue.str "123"⟩, 1) ∧
    (OptionalValue.of (JSValue.num 123)).map (fun _ => JSValue.null) =
      (OptionalValue.empty, 1) ∧
    OptionalValue.empty.map (fun _ => JSValue.str "123") =
      (OptionalValue.empty, 0) :=
  ⟨(map_spec (OptionalValue.of (JSValue.num 123)) (fun _ => JSValue.str "123")).1
      (by decide) (by decide),
   (map_spec (OptionalValue.of (JSValue.num 123)) (fun _ => JSValue.null)).2.1
      (by decide) (by decide),
   (map_spec OptionalValue.empty (fun _ => JSValue.str "123")).2.2 (by decide)⟩

/-- C6: `filter` on a Present container returns the very same
container when the predicate holds on the value, an Empty container
when it does not, and on an Empty container returns the container
unchanged with the predicate never invoked (invocation count 0). -/
theorem filter_spec (o : OptionalValue) (p : JSValue → Bool) :
    (o.isPresent = true → p o.value = true → o.filter p = (o, 1)) ∧
    (o.isPresent = true → p o.value = false →
      o.filter p = (OptionalValue.empty, 1)) ∧
    (o.isEmpty = true → o.filter p = (o, 0)) := by
  refine ⟨fun hp hpt => ?_, fun hp hpf => ?_, fun he => ?_⟩
  · have he := isEmpty_eq_false_of_isPresent o hp
    simp [filter, he, hpt]
  · have he := isEmpty_eq_false_of_isPresent o hp
    simp [filter, he, hpf]
  · simp [filter, he]

/-- C6 witness: `filter_spec` at Present(1) with a passing predicate,
at Present(1) with a failing predicate, and at Empty. -/
theorem filter_spec_witness :
    (OptionalValue.of (JSValue.num 1)).filter (fun _ => true) =
      (OptionalValue.of (JSValue.num 1), 1) ∧
    (OptionalValue.of (JSValue.num 1)).filter (fun _ => false) =
      (OptionalValue.empty, 1) ∧
    OptionalValue.empty.filter (fun _ => true) = (OptionalValue.empty, 0) :=
  ⟨(filter_spec (OptionalValue.of (JSValue.num 1)) (fun _ => true)).1
      (by decide) (by decide),
   (filter_spec (OptionalValue.of (JSValue.num 1)) (fun _ => false)).2.1
      (by decide) (by decide),
   (filter_spec OptionalValue.empty (fun _ => true)).2.2 (by decide)⟩

/-- C7: `equals` is true when both containers are Empty, false when
exactly one is Empty, and when both are Present it returns the
comparator's verdict when one is given and strict identity/primitive
equality otherwise — not deep equality: two distinct objects with
identical content compare unequal. -/
theorem equals_spec (a b : OptionalValue) (c : JSValue → JSValue → Bool) :
    (a.isEmpty = true → b.isEmpty = true →
      a.equals b none = true ∧ a.equals b (some c) = true) ∧
    (a.isEmpty = true → b.isPresent = true →
      a.equals b none = false ∧ a.equals b (some c) = false) ∧
    (a.isPresent = true → b.isEmpty = true →
      a.equals b none = false ∧ a.equals b (some c) = false) ∧
    (a.isPresent = true → b.isPresent = true →
      a.equals b (some c) = c a.value b.value) ∧
    (a.isPresent = true → b.isPresent = true →
      a.equals b none = a.value.strictEq b.value) ∧
    (OptionalValue.of (JSValue.obj 0 none "x")).equals
      (OptionalValue.of (JSValue.obj 1 none "x")) none = false := by
  refine ⟨fun ha hb => ?_, fun ha hb => ?_, fun ha hb => ?_,
    fun ha hb => ?_, fun ha hb => ?_, by decide⟩
  · simp [equals, ha, hb]
  · have hb := isEmpty_eq_false_of_isPresent b hb
    simp [equals, ha, hb]
  · have ha := isEmpty_eq_false_of_isPresent a ha
    simp [equals, ha, hb]
  · have ha := isEmpty_eq_false_of_isPresent a ha
    have hb := isEmpty_eq_false_of_isPresent b hb
    simp [equals, ha, hb]
  · have ha := isEmpty_eq_false_of_isPresent a ha
    have hb := isEmpty_eq_false_of_isPresent b hb
    simp [equals, ha, hb]

/-- C7 witness: `equals_spec` at the spec's probes — 123 equals 123,
123 differs from 456, a typeof-style comparator accepts 123 and 456,
Empty equals Empty, and mixed cases are false. -/
theorem equals_spec_witness :
    (OptionalValue.of (JSValue.num 123)).equals
      (OptionalValue.of (JSValue.num 123)) none = true ∧
    (OptionalValue.of (JSValue.num 123)).equals
      (OptionalValue.of (JSValue.num 456)) none = false ∧
    (OptionalValue.of (JSValue.num 123)).equals
      (OptionalValue.of (JSValue.num 456))
      (some fun a b => a.isNum && b.isNum) = true ∧
    OptionalValue.empty.equals OptionalValue.empty none = true ∧
    (OptionalValue.of (JSValue.num 123)).equals OptionalValue.empty none = false ∧
    OptionalValue.empty.equals (OptionalValue.of (JSValue.num 123)) none = false := by
  refine ⟨?_, ?_, ?_, ?_, ?_, ?_⟩
  · rw [(equals_spec (OptionalValue.of (JSValue.num 123))
      (OptionalValue.of (JSValue.num 123))
      (fun a b => a.isNum && b.isNum)).2.2.2.2.1 (by decide) (by decide)]
    decide
  · rw [(equals_spec (OptionalValue.of (JSValue.num 123))
      (OptionalValue.of (JSValue.num 456))
      (fun a b => a.isNum && b.isNum)).2.2.2.2.1 (by decide) (by decide)]
    decide
  · rw [(equals_spec (OptionalValue.of (JSValue.num 123))
      (OptionalValue.of (JSValue.num 456))
      (fun a b => a.isNum && b.isNum)).2.2.2.1 (by decide) (by decide)]
    decide
  · exact ((equals_spec OptionalValue.empty OptionalValue.empty
      (fun a b => a.isNum && b.isNum)).1 (by decide) (by decide)).1
  · exact ((equals_spec (OptionalValue.of (JSValue.num 123))
      OptionalValue.empty (fun a b => a.isNum && b.isNum)).2.2.1
      (by decide) (by decide)).1
  · exact ((equals_spec OptionalValue.empty
      (OptionalValue.of (JSValue.num 123))
      (fun a b => a.isNum && b.isNum)).2.1 (by decide) (by decide)).1

/-- C8: on a Present container `orElse` and `orElseGet` return the
original contained value and the supplier is never invoked (count 0);
on an Empty container `orElse` returns the fallback and `orElseGet`
invokes the supplier exactly once and returns its result. -/
theorem orElse_orElseGet_spec (o : OptionalValue) (w : JSValue)
    (f : Unit → JSValue) :
    (o.isPresent = true → o.orElse w = o.value ∧ o.orElseGet f = (o.value, 0)) ∧
    (o.isEmpty = true → o.orElse w = w ∧ o.orElseGet f = (f (), 1)) := by
  refine ⟨fun hp => ?_, fun he => ?_⟩
  · simp [orElse, orElseGet, hp]
  · have hp := isPresent_eq_false_of_isEmpty o he
    simp [orElse, orElseGet, hp]

/-- C8 witness: `orElse_orElseGet_spec` at Present(123) and at Empty
with fallback 456. -/
theorem orElse_orElseGet_spec_witness :
    ((OptionalValue.of (JSValue.num 123)).orElse (JSValue.num 456) =
        JSValue.num 123 ∧
      (OptionalValue.of (JSValue.num 123)).orElseGet (fun _ => JSValue.num 456) =
        (JSValue.num 123, 0)) ∧
    (OptionalValue.empty.orElse (JSValue.num 456) = JSValue.num 456 ∧
      OptionalValue.empty.orElseGet (fun _ => JSValue.num 456) =
        (JSValue.num 456, 1)) :=
  ⟨(orElse_orElseGet_spec (OptionalValue.of (JSValue.num 123)) (JSValue.num 456)
      (fun _ => JSValue.num 456)).1 (by decide),
   (orElse_orElseGet_spec OptionalValue.empty (JSValue.num 456)
      (fun _ => JSValue.num 456)).2 (by decide)⟩

/-- C10: every Empty container produced by the public operations
stores the canonical marker `null`, never `undefined`: `empty()`,
`wrap(undefined)`, `wrap(null)`, `filter` with a failing predicate and
`map` with a mapper returning an absence marker all yield containers
whose `get` returns `null`. -/
theorem null_canonical_spec :
    OptionalValue.empty.get = JSValue.null ∧
    (OptionalValue.of JSValue.undef).get = JSValue.null ∧
    (OptionalValue.of JSValue.null).get = JSValue.null ∧
    (∀ (o : OptionalValue) (p : JSValue → Bool),
      o.isPresent = true → p o.value = false →
      ((o.filter p).1).get = JSValue.null) ∧
    (∀ (o : OptionalValue) (f : JSValue → JSValue),
      o.isPresent = true → isPresentValue (f o.value) = false →
      ((o.map f).1).get = JSValue.null) := by
  refine ⟨rfl, rfl, rfl, fun o p hp hpf => ?_, fun o f hp hm => ?_⟩
  · have he := isEmpty_eq_false_of_isPresent o hp
    simp [filter, he, hpf, OptionalValue.get, empty]
  · have he := isEmpty_eq_false_of_isPresent o hp
    simp [map, he, hm, OptionalValue.get, empty]

/-- C10 witness: `null_canonical_spec` at Present(1) with a failing
predicate and with a mapper returning `undefined`. -/
theorem null_canonical_spec_witness :
    (((OptionalValue.of (JSValue.num 1)).filter (fun _ => false)).1).get =
      JSValue.null ∧
    (((OptionalValue.of (JSValue.num 1)).map (fun _ => JSValue.undef)).1).get =
      JSValue.null :=
  ⟨null_canonical_spec.2.2.2.1 (OptionalValue.of (JSValue.num 1))
      (fun _ => false) (by decide) (by decide),
   null_canonical_spec.2.2.2.2 (OptionalValue.of (JSValue.num 1))
      (fun _ => JSValue.undef) (by decide) (by decide)⟩
